import Mathlib

/-
Shallow embedding of the libxdo-rs wrapper (src/lib.rs).

The wrapper is a thin FFI adaptation layer; every operation forwards to a
native symbol. We embed each wrapper function as a pure Lean function that
takes the response of the native layer (status sentinel, output-parameter values)
as explicit inputs, and returns the result of the wrapper together with the list
of native calls the wrapper performs, in order. Pointers are modelled as
Nat, with 0 standing for the null pointer. The C type c_int is modelled as
Int, u64/u32 as Nat with explicit narrowing mod 2^64 / 2^32. The value
None/none in a result position models the unreachable!() process abort taken
when the native status is neither sentinel.
-/

namespace LibXdo

/-- Native status sentinel for success, the constant XDO_SUCCESS = 0 in lib.rs. -/
def XDO_SUCCESS : Int := 0

/-- Native status sentinel for failure, the constant XDO_ERROR = 1 in lib.rs. -/
def XDO_ERROR : Int := 1

/-- Model of std::str::Utf8Error: the index up to which the input was valid
UTF-8, and the length of the invalid sequence (none when the input ended in
an incomplete sequence). -/
structure Utf8Error where
  valid_up_to : Nat
  error_len : Option Nat
  deriving DecidableEq

/-- Display rendering of std::str::Utf8Error, from the Rust standard library. -/
def Utf8Error.display (e : Utf8Error) : String :=
  match e.error_len with
  | some n =>
      "invalid utf-8 sequence of " ++ Nat.repr n ++ " bytes from index "
        ++ Nat.repr e.valid_up_to
  | none => "incomplete utf-8 byte sequence from index " ++ Nat.repr e.valid_up_to

/-- Description string of std::str::Utf8Error, from the Rust standard
library implementation of Error::description. -/
def Utf8Error.description (_ : Utf8Error) : String := "invalid utf-8: corrupt contents"

/-- Model of std::ffi::NulError: the position of the first interior NUL byte
and the bytes that were being converted. -/
structure NulError where
  pos : Nat
  bytes : List Nat
  deriving DecidableEq

/-- Display rendering of std::ffi::NulError, from the Rust standard library. -/
def NulError.display (e : NulError) : String :=
  "nul byte found in provided data at position: " ++ Nat.repr e.pos

/-- The error taxonomy of the wrapper (enum Error in lib.rs). -/
inductive Error where
  | Failed (op : String)
  | Utf8 (err : Utf8Error)
  | NullByteInString (err : NulError)
  deriving DecidableEq

/-- The underlying cause returned by the cause accessor: either a UTF-8
decode error or a NUL-in-string error (a trait object in the Rust source). -/
inductive ErrorCause where
  | utf8 (err : Utf8Error)
  | nul (err : NulError)
  deriving DecidableEq

/-- Embedding of the cause accessor of std::error::Error for Error. -/
def Error.cause : Error → Option ErrorCause
  | .Utf8 err => some (.utf8 err)
  | .NullByteInString err => some (.nul err)
  | .Failed _ => none

/-- Embedding of the description accessor of std::error::Error for Error. -/
def Error.description : Error → String
  | .Failed _ => "libxdo call returned error"
  | .Utf8 err => err.description
  | .NullByteInString _ => "string argument had a null byte"

/-- Embedding of the Display implementation for Error. -/
def Error.display : Error → String
  | .Failed s => "libxdo::" ++ s ++ " returned an error"
  | .Utf8 err => err.display
  | .NullByteInString err =>
      "A String argument containing a NULL byte was provided: " ++ err.display

/-- Embedding of the From conversion promoting a Utf8Error into Error. -/
def Error.fromUtf8Error (val : Utf8Error) : Error := .Utf8 val

/-- Embedding of the From conversion promoting a NulError into Error. -/
def Error.fromNulError (val : NulError) : Error := .NullByteInString val

/-- The modifier-state snapshot (struct CharcodeMapList in lib.rs): a
native-allocated array pointer plus its record count (a c_int). -/
structure CharcodeMapList where
  ptr : Nat
  len : Int
  deriving DecidableEq

/-- One native call performed by the wrapper, with the arguments that the
wrapper passes. Constructors are named after the native symbols consumed. -/
inductive NativeCall where
  | xdo_new (display : Option Nat)
  | xdo_get_active_window (xdo : Nat)
  | xdo_get_window_name (xdo : Nat) (window : Nat)
  | xdo_send_keysequence_window (xdo : Nat) (window : Nat) (cstring : List Nat) (delay : Nat)
  | xdo_get_active_modifiers (xdo : Nat)
  | xdo_set_active_modifiers (xdo : Nat) (window : Nat) (p : Nat) (len : Int)
  | xdo_clear_active_modifiers (xdo : Nat) (window : Nat) (p : Nat) (len : Int)
  | XFree (p : Nat)
  | free (p : Nat)
  deriving DecidableEq

/-- Embedding of the Drop implementation for CharcodeMapList: the list of
native calls performed when the snapshot goes out of scope. The C free is
invoked on the array pointer exactly when the pointer is non-null. -/
def charcodeMapListDrop (l : CharcodeMapList) : List NativeCall :=
  if l.ptr ≠ 0 then [NativeCall.free l.ptr] else []

/-- A window reference (struct Window in lib.rs): the native window
identifier paired with the borrowed handle, which we model by the native
pointer value of the handle. -/
structure Window where
  id : Nat
  xdo : Nat
  deriving DecidableEq

/-- Embedding of the Debug implementation for Window: the Rust source builds
the output with a debug_struct named Window holding the single field id; the
borrowed handle is not written. Rust renders the u64 identifier in decimal. -/
def Window.debugFmt (w : Window) : String :=
  "Window \x7b id: " ++ Nat.repr w.id ++ " \x7d"

/-- Embedding of ptr_or_error from lib.rs: a null pointer becomes
Failed with the method label, a non-null pointer is passed through. -/
def ptr_or_error (p : Nat) (method : String) : Except Error Nat :=
  if p = 0 then .error (.Failed method) else .ok p

/-- Embedding of Xdo::new. The input is the pointer the native constructor
returns (0 for null); the trace records that xdo_new is called with a null
display argument. -/
def xdoNew (ret : Nat) : Except Error Nat × List NativeCall :=
  (ptr_or_error ret "xdo_new", [NativeCall.xdo_new none])

/-- Embedding of XdoRef::get_active_window. Inputs are the native status and
the identifier the native call writes through its output parameter. -/
def getActiveWindow (xdo : Nat) (res : Int) (out_id : Nat) :
    Option (Except Error Window) × List NativeCall :=
  (if res = XDO_SUCCESS then some (.ok ⟨out_id, xdo⟩)
   else if res = XDO_ERROR then some (.error (.Failed "get_active_window"))
   else none,
   [NativeCall.xdo_get_active_window xdo])

/-- Embedding of XdoRef::get_active_modifiers. Inputs are the native status
and the array pointer and length written through the output parameters. -/
def getActiveModifiers (xdo : Nat) (res : Int) (out_ptr : Nat) (out_len : Int) :
    Option (Except Error CharcodeMapList) × List NativeCall :=
  (if res = XDO_SUCCESS then some (.ok ⟨out_ptr, out_len⟩)
   else if res = XDO_ERROR then some (.error (.Failed "get_active_modifiers"))
   else none,
   [NativeCall.xdo_get_active_modifiers xdo])

/-- UTF-8 validation and decoding, following the Rust standard library
run_utf8_validation routine used by str::from_utf8: strict UTF-8 with
overlong encodings, surrogates and out-of-range lead bytes rejected, and
with the same valid_up_to / error_len reporting. The first argument is the
index of the current position in the original byte string. -/
def utf8DecodeAux : Nat → List Nat → Except Utf8Error (List Char)
  | _, [] => .ok []
  | i, b :: rest =>
    if b < 0x80 then
      match utf8DecodeAux (i + 1) rest with
      | .ok cs => .ok (Char.ofNat b :: cs)
      | .error e => .error e
    else if 0xC2 ≤ b ∧ b ≤ 0xDF then
      match rest.head? with
      | none => .error ⟨i, none⟩
      | some b2 =>
        if 0x80 ≤ b2 ∧ b2 ≤ 0xBF then
          match utf8DecodeAux (i + 2) (rest.drop 1) with
          | .ok cs => .ok (Char.ofNat ((b - 0xC0) * 64 + (b2 - 0x80)) :: cs)
          | .error e => .error e
        else .error ⟨i, some 1⟩
    else if 0xE0 ≤ b ∧ b ≤ 0xEF then
      match rest.head? with
      | none => .error ⟨i, none⟩
      | some b2 =>
        let lo2 : Nat := if b = 0xE0 then 0xA0 else 0x80
        let hi2 : Nat := if b = 0xED then 0x9F else 0xBF
        if lo2 ≤ b2 ∧ b2 ≤ hi2 then
          match rest[1]? with
          | none => .error ⟨i, none⟩
          | some b3 =>
            if 0x80 ≤ b3 ∧ b3 ≤ 0xBF then
              match utf8DecodeAux (i + 3) (rest.drop 2) with
              | .ok cs =>
                  .ok (Char.ofNat ((b - 0xE0) * 4096 + (b2 - 0x80) * 64 + (b3 - 0x80)) :: cs)
              | .error e => .error e
            else .error ⟨i, some 2⟩
        else .error ⟨i, some 1⟩
    else if 0xF0 ≤ b ∧ b ≤ 0xF4 then
      match rest.head? with
      | none => .error ⟨i, none⟩
      | some b2 =>
        let lo2 : Nat := if b = 0xF0 then 0x90 else 0x80
        let hi2 : Nat := if b = 0xF4 then 0x8F else 0xBF
        if lo2 ≤ b2 ∧ b2 ≤ hi2 then
          match rest[1]? with
          | none => .error ⟨i, none⟩
          | some b3 =>
            if 0x80 ≤ b3 ∧ b3 ≤ 0xBF then
              match rest[2]? with
              | none => .error ⟨i, none⟩
              | some b4 =>
                if 0x80 ≤ b4 ∧ b4 ≤ 0xBF then
                  match utf8DecodeAux (i + 4) (rest.drop 3) with
                  | .ok cs =>
                      .ok (Char.ofNat ((b - 0xF0) * 262144 + (b2 - 0x80) * 4096
                            + (b3 - 0x80) * 64 + (b4 - 0x80)) :: cs)
                  | .error e => .error e
                else .error ⟨i, some 3⟩
            else .error ⟨i, some 2⟩
        else .error ⟨i, some 1⟩
    else .error ⟨i, some 1⟩
  termination_by _ l => l.length
  decreasing_by
    all_goals simp_wf
    all_goals omega

/-- Decoding of a byte string into an owned String, model of
CStr::to_str followed by to_owned. -/
def utf8Decode (bytes : List Nat) : Except Utf8Error String :=
  match utf8DecodeAux 0 bytes with
  | .ok cs => .ok (String.mk cs)
  | .error e => .error e

/-- The response of the native layer to xdo_get_window_name: the status sentinel,
the buffer pointer written to the name output parameter, and the bytes of
the NUL-terminated string in that buffer (excluding the terminator), as
CStr::from_ptr reads them. -/
structure GetNameNative where
  res : Int
  name_ptr : Nat
  bytes : List Nat
  deriving DecidableEq

/-- Embedding of Window::get_name. On the success sentinel the Rust source
decodes the buffer with to_str()? and only then calls XFree(name); the ?
operator returns from get_name on a decode error, so on the decode-failure
path the XFree statement is never reached and the trace records no XFree
call. -/
def getName (w : Window) (native : GetNameNative) :
    Option (Except Error String) × List NativeCall :=
  if native.res = XDO_SUCCESS then
    match utf8Decode native.bytes with
    | .ok s =>
        (some (.ok s),
         [NativeCall.xdo_get_window_name w.xdo w.id, NativeCall.XFree native.name_ptr])
    | .error e =>
        (some (.error (.Utf8 e)), [NativeCall.xdo_get_window_name w.xdo w.id])
  else if native.res = XDO_ERROR then
    (some (.error (.Failed "get_window_name")), [NativeCall.xdo_get_window_name w.xdo w.id])
  else (none, [NativeCall.xdo_get_window_name w.xdo w.id])

/-- The useconds_t narrowing modulus: useconds_t is a 32-bit unsigned
integer on the targeted platforms. -/
def usecondsMod : Nat := 4294967296

/-- Model of std::time::Duration: whole seconds (a u64) and the subsecond
nanosecond part (a u32, below one billion for every value Duration admits). -/
structure Duration where
  secs : Nat
  nanos : Nat
  deriving DecidableEq

/-- The microsecond delay computed by Window::send_keysequence: as_secs()
cast to useconds_t (truncating to 32 bits), multiplied by one million in
useconds_t arithmetic (wrapping), plus subsec_nanos() divided by one
thousand, the sum again in useconds_t arithmetic. Absent delay is zero. -/
def udelayOf : Option Duration → Nat
  | none => 0
  | some d =>
      ((d.secs % usecondsMod) * 1000000 % usecondsMod
        + (d.nanos % usecondsMod) / 1000) % usecondsMod

/-- Index of the first NUL byte in a byte string, the position carried by
the NulError that CString::new produces. -/
def firstNulIdx : List Nat → Nat
  | [] => 0
  | b :: rest => if b = 0 then 0 else firstNulIdx rest + 1

/-- Embedding of Window::send_keysequence. Inputs beyond the wrapper
arguments: the native status sentinel. CString::new fails exactly when the
sequence holds an interior NUL; the ? operator then returns the promoted
NulError before the native send is reached, so the trace is empty. On the
NUL-free path a NUL-terminated copy of the bytes is passed through. -/
def sendKeysequence (xdo : Nat) (window : Nat) (seq : List Nat)
    (delay : Option Duration) (res : Int) :
    Option (Except Error Unit) × List NativeCall :=
  let udelay := udelayOf delay
  if seq.contains 0 then
    (some (.error (.NullByteInString ⟨firstNulIdx seq, seq⟩)), [])
  else
    (if res = XDO_SUCCESS then some (.ok ())
     else if res = XDO_ERROR then some (.error (.Failed "send_keysequence"))
     else none,
     [NativeCall.xdo_send_keysequence_window xdo window (seq ++ [0]) udelay])

/-- Embedding of Window::set_active_modifiers: the snapshot pointer and
length are forwarded unchanged; the snapshot itself is only read. -/
def setActiveModifiers (xdo : Nat) (window : Nat) (mods : CharcodeMapList) (res : Int) :
    Option (Except Error Unit) × List NativeCall :=
  (if res = XDO_SUCCESS then some (.ok ())
   else if res = XDO_ERROR then some (.error (.Failed "set_active_modifiers"))
   else none,
   [NativeCall.xdo_set_active_modifiers xdo window mods.ptr mods.len])

/-- Embedding of Window::clear_active_modifiers: the snapshot pointer and
length are forwarded unchanged; the snapshot itself is only read. -/
def clearActiveModifiers (xdo : Nat) (window : Nat) (mods : CharcodeMapList) (res : Int) :
    Option (Except Error Unit) × List NativeCall :=
  (if res = XDO_SUCCESS then some (.ok ())
   else if res = XDO_ERROR then some (.error (.Failed "clear_active_modifiers"))
   else none,
   [NativeCall.xdo_clear_active_modifiers xdo window mods.ptr mods.len])

/-- Matching of a pattern against the start of a character list. -/
def leadMatch : List Char → List Char → Bool
  | [], _ => true
  | _ :: _, [] => false
  | p :: ps, c :: cs => p = c && leadMatch ps cs

/-- Whether a pattern occurs as a contiguous run somewhere in a character list. -/
def subAt : List Char → List Char → Bool
  | pat, [] => leadMatch pat []
  | pat, s@(_ :: cs) => leadMatch pat s || subAt pat cs

/-- Whether the second string occurs as a contiguous substring of the first. -/
def strContainsSub (s pat : String) : Bool := subAt pat.data s.data

/-- C1: evaluation of the embedded Window::get_name on native success
responses. With valid UTF-8 bytes (here the two bytes of "xt") the buffer
pointer is passed to XFree after decoding; with invalid UTF-8 bytes (here
0xFF 0xFE) the wrapper returns the Utf8 error and the trace holds no XFree
call, because the question-mark operator on to_str() returns from get_name
before the XFree statement is reached. The claim that XFree runs exactly
once on both branches therefore fails on the decode-failure branch. -/
theorem getName_xfree_on_success_none_on_utf8_failure :
    ∀ (w : Window) (p : Nat),
      getName w ⟨0, p, [0x78, 0x74]⟩ =
        (some (.ok "xt"),
         [NativeCall.xdo_get_window_name w.xdo w.id, NativeCall.XFree p]) ∧
      getName w ⟨0, p, [0xFF, 0xFE]⟩ =
        (some (.error (.Utf8 ⟨0, some 1⟩)),
         [NativeCall.xdo_get_window_name w.xdo w.id]) := by
  intro w p
  constructor <;> simp [getName, utf8Decode, utf8DecodeAux, XDO_SUCCESS]

/-- C2 counterexample: the Debug rendering of a window with identifier
0x4200007 does not contain the literal 0x4200007, because the identifier is
rendered in decimal. -/
theorem window_debug_no_hex_literal :
    strContainsSub (Window.debugFmt ⟨0x4200007, 1⟩) "0x4200007" = false := by decide

/-- C2 amended: the Debug rendering of a window reveals only the identifier
(the borrowed handle does not influence the output), and for the window
obtained from an active-window query answering identifier 0x4200007 the
rendering contains the decimal literal 69206023 of that identifier. -/
theorem window_debug_id_only_decimal :
    ∀ (id h h2 : Nat),
      Window.debugFmt ⟨id, h⟩ = Window.debugFmt ⟨id, h2⟩ ∧
      Window.debugFmt ⟨id, h⟩ = "Window \x7b id: " ++ Nat.repr id ++ " \x7d" ∧
      (getActiveWindow h 0 0x4200007).1 = some (.ok ⟨0x4200007, h⟩) ∧
      strContainsSub (Window.debugFmt ⟨0x4200007, 0⟩) "69206023" = true := by
  intro id h h2
  exact ⟨rfl, rfl, rfl, by decide⟩

/-- C3: for every NUL-free key sequence, a delay of d seconds and n
subsecond nanoseconds (n below one billion, as Duration guarantees) is
forwarded to the native send as d * 1000000 + n / 1000 microseconds narrowed
to the 32-bit useconds_t width, and an absent delay is forwarded as zero. -/
theorem send_keysequence_delay_conversion :
    ∀ (xdo window : Nat) (seq : List Nat) (d n : Nat) (res : Int),
      seq.contains 0 = false →
      n < 1000000000 →
      (sendKeysequence xdo window seq (some ⟨d, n⟩) res).2 =
        [NativeCall.xdo_send_keysequence_window xdo window (seq ++ [0])
          ((d * 1000000 + n / 1000) % 4294967296)] ∧
      (sendKeysequence xdo window seq none res).2 =
        [NativeCall.xdo_send_keysequence_window xdo window (seq ++ [0]) 0] := by
  intro xdo window seq d n res hc hn
  simp at hc
  constructor
  · simp [sendKeysequence, udelayOf, usecondsMod, hc]
    omega
  · simp [sendKeysequence, udelayOf, hc]

/-- C3 witness, following the delay-conversion scenario of the spec: a delay
of 2 seconds and 500000 nanoseconds on the sequence byte 82 is forwarded as
2000500 microseconds. -/
theorem send_keysequence_delay_conversion_witness :
    (sendKeysequence 1 2 [82] (some ⟨2, 500000⟩) 0).2 =
      [NativeCall.xdo_send_keysequence_window 1 2 [82, 0] 2000500] := by
  have h := (send_keysequence_delay_conversion 1 2 [82] 2 500000 0 (by decide) (by decide)).1
  simpa using h

/-- C4: a key sequence holding an interior NUL byte makes send_keysequence
return the NullByteInString error carrying the NulError of the conversion,
with no native call performed; a NUL-free sequence reaches the native send
as a NUL-terminated copy. -/
theorem send_keysequence_nul_handling :
    ∀ (xdo window : Nat) (seq : List Nat) (delay : Option Duration) (res : Int),
      (seq.contains 0 = true →
        sendKeysequence xdo window seq delay res =
          (some (.error (.NullByteInString ⟨firstNulIdx seq, seq⟩)), [])) ∧
      (seq.contains 0 = false →
        (sendKeysequence xdo window seq delay res).2 =
          [NativeCall.xdo_send_keysequence_window xdo window (seq ++ [0]) (udelayOf delay)]) := by
  intro xdo window seq delay res
  constructor <;> intro hc <;> simp at hc <;> simp [sendKeysequence, hc]

/-- C4 witness: the sequence bytes 82 0 85 yield the NulError at position 1
with no native call, and the NUL-free sequence byte 82 reaches the native
send as the bytes 82 0. -/
theorem send_keysequence_nul_handling_witness :
    sendKeysequence 1 2 [82, 0, 85] none 0 =
      (some (.error (.NullByteInString ⟨1, [82, 0, 85]⟩)), []) ∧
    (sendKeysequence 1 2 [82] none 0).2 =
      [NativeCall.xdo_send_keysequence_window 1 2 [82, 0] 0] := by
  constructor
  · have h := (send_keysequence_nul_handling 1 2 [82, 0, 85] none 0).1 (by decide)
    simpa using h
  · have h := (send_keysequence_nul_handling 1 2 [82] none 0).2 (by decide)
    simpa using h

/-- C5: Xdo::new calls the native constructor with a null display argument,
returns the wrapped pointer exactly when the constructor answers a non-null
pointer, and fails with Failed on the xdo_new label when it answers null. -/
theorem xdo_new_behavior :
    ∀ (ret : Nat),
      (xdoNew ret).2 = [NativeCall.xdo_new none] ∧
      (ret ≠ 0 → (xdoNew ret).1 = .ok ret) ∧
      (ret = 0 → (xdoNew ret).1 = .error (.Failed "xdo_new")) := by
  intro ret
  refine ⟨rfl, ?_, ?_⟩ <;> intro h <;> simp [xdoNew, ptr_or_error, h]

/-- C5 witness: a non-null constructor answer 3 is wrapped, a null answer
produces the Failed error labelled xdo_new. -/
theorem xdo_new_behavior_witness :
    (xdoNew 3).1 = .ok 3 ∧ (xdoNew 0).1 = .error (.Failed "xdo_new") :=
  ⟨(xdo_new_behavior 3).2.1 (by decide), (xdo_new_behavior 0).2.2 rfl⟩

/-- C6: Display of the error type follows the fixed rules: Failed renders as
libxdo::op returned an error, Utf8 renders exactly its underlying cause, and
NullByteInString renders the fixed sentence followed by its cause. -/
theorem error_display_rules :
    ∀ (op : String) (u : Utf8Error) (n : NulError),
      Error.display (.Failed op) = "libxdo::" ++ op ++ " returned an error" ∧
      Error.display (.Utf8 u) = Utf8Error.display u ∧
      Error.display (.NullByteInString n) =
        "A String argument containing a NULL byte was provided: " ++ NulError.display n := by
  intro op u n
  exact ⟨rfl, rfl, rfl⟩

/-- C7: the cause accessor answers the underlying Utf8Error for Utf8 and the
underlying NulError for NullByteInString and nothing for Failed, and the
From conversions promote a Utf8Error into Utf8 and a NulError into
NullByteInString. -/
theorem error_cause_and_from :
    ∀ (op : String) (u : Utf8Error) (n : NulError),
      Error.cause (.Utf8 u) = some (.utf8 u) ∧
      Error.cause (.NullByteInString n) = some (.nul n) ∧
      Error.cause (.Failed op) = none ∧
      Error.fromUtf8Error u = .Utf8 u ∧
      Error.fromNulError n = .NullByteInString n := by
  intro op u n
  exact ⟨rfl, rfl, rfl, rfl, rfl⟩

/-- C8: dropping a modifier snapshot performs exactly one C free on its
array pointer when that pointer is non-null, and performs no call at all
when the pointer is null. -/
theorem charcodemaplist_drop_behavior :
    ∀ (l : CharcodeMapList),
      (l.ptr ≠ 0 → charcodeMapListDrop l = [NativeCall.free l.ptr]) ∧
      (l.ptr = 0 → charcodeMapListDrop l = []) := by
  intro l
  constructor <;> intro h <;> simp [charcodeMapListDrop, h]

/-- C8 witness: a snapshot with array pointer 5 frees pointer 5 once on
drop, the empty snapshot with null pointer frees nothing. -/
theorem charcodemaplist_drop_behavior_witness :
    charcodeMapListDrop ⟨5, 2⟩ = [NativeCall.free 5] ∧
    charcodeMapListDrop ⟨0, 0⟩ = [] :=
  ⟨(charcodemaplist_drop_behavior ⟨5, 2⟩).1 (by decide),
   (charcodemaplist_drop_behavior ⟨0, 0⟩).2 rfl⟩

/-- C9: set_active_modifiers and clear_active_modifiers forward the
snapshot pointer and length unchanged in their single native call (the
snapshot is only read: the trace holds no free and the embedding returns no
altered snapshot), answering unit on sentinel 0 and the respective Failed on
sentinel 1. -/
theorem modifiers_set_clear_behavior :
    ∀ (xdo window : Nat) (mods : CharcodeMapList) (res : Int),
      (setActiveModifiers xdo window mods res).2 =
        [NativeCall.xdo_set_active_modifiers xdo window mods.ptr mods.len] ∧
      (clearActiveModifiers xdo window mods res).2 =
        [NativeCall.xdo_clear_active_modifiers xdo window mods.ptr mods.len] ∧
      (res = XDO_SUCCESS →
        (setActiveModifiers xdo window mods res).1 = some (.ok ()) ∧
        (clearActiveModifiers xdo window mods res).1 = some (.ok ())) ∧
      (res = XDO_ERROR →
        (setActiveModifiers xdo window mods res).1 =
          some (.error (.Failed "set_active_modifiers")) ∧
        (clearActiveModifiers xdo window mods res).1 =
          some (.error (.Failed "clear_active_modifiers"))) := by
  intro xdo window mods res
  refine ⟨rfl, rfl, ?_, ?_⟩ <;> intro h <;>
    simp [setActiveModifiers, clearActiveModifiers, XDO_SUCCESS, XDO_ERROR, h]

/-- C9 witness: at sentinel 0 both calls answer unit, at sentinel 1 both
answer their Failed errors, with the snapshot pointer 7 and length 3
forwarded unchanged. -/
theorem modifiers_set_clear_behavior_witness :
    (setActiveModifiers 1 2 ⟨7, 3⟩ 0).2 =
      [NativeCall.xdo_set_active_modifiers 1 2 7 3] ∧
    (setActiveModifiers 1 2 ⟨7, 3⟩ 0).1 = some (.ok ()) ∧
    (clearActiveModifiers 1 2 ⟨7, 3⟩ 1).1 =
      some (.error (.Failed "clear_active_modifiers")) :=
  ⟨(modifiers_set_clear_behavior 1 2 ⟨7, 3⟩ 0).1,
   ((modifiers_set_clear_behavior 1 2 ⟨7, 3⟩ 0).2.2.1 rfl).1,
   ((modifiers_set_clear_behavior 1 2 ⟨7, 3⟩ 1).2.2.2 rfl).2⟩

/-- C10: the description accessor answers the fixed string for every Failed
value regardless of its operation label and the fixed string for every
NullByteInString value regardless of its cause; only the Utf8 arm consults
its payload, delegating to the description of the cause. -/
theorem error_description_rules :
    ∀ (op op2 : String) (u : Utf8Error) (n n2 : NulError),
      Error.description (.Failed op) = "libxdo call returned error" ∧
      Error.description (.Failed op) = Error.description (.Failed op2) ∧
      Error.description (.NullByteInString n) = "string argument had a null byte" ∧
      Error.description (.NullByteInString n) = Error.description (.NullByteInString n2) ∧
      Error.description (.Utf8 u) = Utf8Error.description u := by
  intro op op2 u n n2
  exact ⟨rfl, rfl, rfl, rfl, rfl⟩

end LibXdo
